import Mathlib

/-!
Shallow embedding of `src/server/server.py` (the "Akatsuki" single-room
WebSocket chat server): the presence registry, the moderation store
(bans/mutes) with snapshot persistence, the admin command processor, message
dispatch, and the auth phase plus eviction path of the connection lifecycle.

Modelling conventions.
The asyncio locks in the source serialize all state access, so every handler
is modelled as a pure function from server state (plus the current instant)
to a new state and an ordered list of outbound actions.  Instants are
integers at second granularity; `datetime` ISO strings are abstracted by
`TimeStr` (a string that either parses to an instant or does not).
Python dictionaries are modelled as insertion-ordered association lists with
exact-string keys; Python sets as duplicate-free lists (set iteration order,
which Python leaves unspecified, becomes first-insertion order — this only
affects the relative order of per-target actions of one command).
Unicode-sensitive operations (`str.lower`, `str.strip`, `str.isdigit`, the
regex class `\d`) are modelled at ASCII granularity, which is faithful on
every input any claim mentions.  Message ids and `ts` timestamp fields
carried inside JSON payloads are opaque to all claims and are omitted from
the event model; `uuid4` session ids are passed in as parameters.
-/

namespace Akatsuki

/-- Default admin username (env default of `ADMIN_USERNAME`, server.py line 27). -/
def ADMIN_USERNAME : String := "Aadish"

/-- Default admin password (env default of `ADMIN_PASSWORD`, server.py line 28). -/
def ADMIN_PASSWORD : String := "Aadish20m"

/-- Static whitelist (server.py line 43). -/
def WHITELISTED_USERS : List String :=
  ["Prakhar", "Priyanshu", "Summit", "Aditya", "Yuvraj", "Yash"]

/-- Application name (server.py line 26). -/
def APP_NAME : String := "Akatsuki"

/-- Default AI model id (server.py line 40). -/
def DEFAULT_MODEL : String := "compound-beta-oss"

/-- AI model alias table (server.py lines 33-39). -/
def MODEL_ALIASES : List (String × String) :=
  [("gpt", "openai/gpt-oss-120b"),
   ("llama", "meta-llama/llama-4-maverick-17b-128e-instruct"),
   ("deepseek", "deepseek-r1-distill-llama-70b"),
   ("qwen", "qwen/qwen3-32b"),
   ("compound", "compound-beta-oss")]

/-- An ISO-8601 timestamp string, abstracted: `valid t` stands for a string
that `datetime.fromisoformat` parses to the instant `t` (seconds since epoch,
UTC); `invalid s` stands for a string it fails to parse. -/
inductive TimeStr where
  | valid (t : Int) : TimeStr
  | invalid (s : String) : TimeStr
  deriving DecidableEq

/-- server.py `ts_iso` (lines 66-68): format an instant; always parses back. -/
def ts_iso (t : Int) : TimeStr := TimeStr.valid t

/-- server.py `ts_from_iso` (lines 70-74): parse, `None` on failure. -/
def ts_from_iso : TimeStr → Option Int
  | TimeStr.valid t => some t
  | TimeStr.invalid _ => none

/-- Session role. -/
inductive Role where
  | user : Role
  | admin : Role
  deriving DecidableEq

/-- server.py class `User` (lines 53-58): one live session.  The websocket
handle is identified with the session id for addressing purposes. -/
structure User where
  sessionId : String
  username : String
  role : Role
  deriving DecidableEq

/-- Outbound event payloads (the `type`-discriminated JSON objects the server
sends).  `id` and `ts` fields are opaque to every claim and omitted. -/
inductive Event where
  | auth_failed (reason : String) : Event
  | auth_ok (username : String) (role : Role) : Event
  | system (text : String) : Event
  | user_join (name : String) (role : Role) : Event
  | user_leave (name : String) (role : Role) : Event
  | users (list : List (String × Role)) : Event
  | message (sender : String) (text : String) : Event
  | pm (sender : String) (recipients : List String) (text : String) : Event
  | broadcast_msg (sender : String) (text : String) : Event
  | clear_chat : Event
  | clear_broadcast : Event
  | ai_resp (text : String) : Event
  deriving DecidableEq

/-- One externally observable effect of a handler, in program order:
a `safe_send` to the connection being handled (`toRequester`), a `safe_send`
to a specific session's websocket (`toSession`), a `broadcast` to everyone
except the excluded session ids, a forced close of a session's websocket,
or a scheduled persistence write (`save_state`/`async_save_state`). -/
inductive Action where
  | toRequester (e : Event) : Action
  | toSession (sid : String) (e : Event) : Action
  | broadcastExcept (excl : List String) (e : Event) : Action
  | closeConn (sid : String) : Action
  | save : Action
  deriving DecidableEq

/-- The shared mutable server state: `connected_users` (insertion-ordered,
keyed by session id), `bans`, `mutes` (insertion-ordered dicts keyed by the
exact name string) and `TEMPORARY_WHITELIST` (a set of lowered names). -/
structure ServerState where
  connected : List User
  bans : List (String × Option TimeStr)
  mutes : List (String × TimeStr)
  tempWL : List String
  deriving DecidableEq

/-- Lowercase one ASCII letter (Python `str.lower`, ASCII fragment). -/
def charLower (c : Char) : Char :=
  if 65 ≤ c.toNat ∧ c.toNat ≤ 90 then Char.ofNat (c.toNat + 32) else c

/-- Python `str.lower` (ASCII fragment). -/
def pyLower (s : String) : String := String.mk (s.toList.map charLower)

/-- Python `str.strip()` with no arguments: drop leading and trailing
whitespace. -/
def pyStrip (s : String) : String :=
  String.mk
    (((s.toList.dropWhile Char.isWhitespace).reverse.dropWhile Char.isWhitespace).reverse)

/-- Python `str.startswith`. -/
def pyStartsWith (s pre : String) : Bool := pre.toList.isPrefixOf s.toList

/-- Python slicing `s[n:]`. -/
def pyDrop (s : String) (n : Nat) : String := String.mk (s.toList.drop n)

/-- Python `sep.join(parts)`. -/
def joinSep (sep : String) : List String → String
  | [] => ""
  | [x] => x
  | x :: y :: rest => x ++ sep ++ joinSep sep (y :: rest)

/-- Python `str.split()` with no arguments: split on whitespace runs,
producing no empty tokens. -/
def splitWsAux : List Char → List Char → List String
  | [], [] => []
  | [], cur => [String.mk cur.reverse]
  | c :: cs, cur =>
    if c.isWhitespace then
      (if cur.isEmpty then splitWsAux cs [] else String.mk cur.reverse :: splitWsAux cs [])
    else splitWsAux cs (c :: cur)

/-- Python `str.split()` on a whole string. -/
def pySplit (s : String) : List String := splitWsAux s.toList []

/-- One ASCII digit (Python `str.isdigit` / regex `\d`, ASCII fragment). -/
def charIsDigit (c : Char) : Bool := 48 ≤ c.toNat && c.toNat ≤ 57

/-- Python `str.isdigit` (ASCII digits; empty string is false). -/
def pyIsDigit (s : String) : Bool := !s.toList.isEmpty && s.toList.all charIsDigit

/-- Python `int(...)` on an all-digits string. -/
def pyToNat (s : String) : Nat := s.toList.foldl (fun n c => 10 * n + (c.toNat - 48)) 0

/-- Python dict assignment `m[k] = v`: updates the value in place if the
exact key is present, otherwise appends (insertion order preserved). -/
def dictInsert {α : Type} (m : List (String × α)) (k : String) (v : α) :
    List (String × α) :=
  if m.any (fun p => p.1 == k) then m.map (fun p => if p.1 == k then (k, v) else p)
  else m ++ [(k, v)]

/-- Python dict deletion `del m[k]`: removes the first (in a dict, the only)
entry with the exact key. -/
def delKey {α : Type} : List (String × α) → String → List (String × α)
  | [], _ => []
  | p :: rest, k => if p.1 == k then rest else p :: delKey rest k

/-- Python `set.add`: insert if absent. -/
def setAdd (l : List String) (x : String) : List String :=
  if x ∈ l then l else l ++ [x]

-- ---------------------------------------------------------------------------
-- Moderation store
-- ---------------------------------------------------------------------------

/-- Recursion of `is_banned` over `bans.items()`: first case-insensitive
match decides; a permanent or still-active ban returns its reason; an
expired parseable ban is deleted, a save is scheduled, and the check returns
no reason immediately; an unparseable expiry is skipped.  Result:
(reason?, updated bans, whether a persistence write was scheduled). -/
def isBannedAux (now : Int) (uLower : String) :
    List (String × Option TimeStr) →
    Option String × List (String × Option TimeStr) × Bool
  | [] => (none, [], false)
  | (k, v) :: rest =>
    if pyLower k == uLower then
      match v with
      | none => (some "You are permanently banned.", (k, v) :: rest, false)
      | some ts =>
        match ts_from_iso ts with
        | some t =>
          if now < t then
            (some ("You are banned for another " ++ toString ((t - now) / 60)
                ++ " minutes."),
             (k, some ts) :: rest, false)
          else (none, rest, true)
        | none =>
          match isBannedAux now uLower rest with
          | (r, rest2, s) => (r, (k, some ts) :: rest2, s)
    else
      match isBannedAux now uLower rest with
      | (r, rest2, s) => (r, (k, v) :: rest2, s)

/-- server.py `is_banned` (lines 129-142). -/
def is_banned (bans : List (String × Option TimeStr)) (username : String)
    (now : Int) : Option String × List (String × Option TimeStr) × Bool :=
  isBannedAux now (pyLower username) bans

/-- Recursion of `is_muted` over `mutes.items()`, symmetric to
`isBannedAux` but with no permanent case and a seconds-based reason. -/
def isMutedAux (now : Int) (uLower : String) :
    List (String × TimeStr) → Option String × List (String × TimeStr) × Bool
  | [] => (none, [], false)
  | (k, ts) :: rest =>
    if pyLower k == uLower then
      match ts_from_iso ts with
      | some t =>
        if now < t then
          (some ("You are muted for another " ++ toString (t - now) ++ "s."),
           (k, ts) :: rest, false)
        else (none, rest, true)
      | none =>
        match isMutedAux now uLower rest with
        | (r, rest2, s) => (r, (k, ts) :: rest2, s)
    else
      match isMutedAux now uLower rest with
      | (r, rest2, s) => (r, (k, ts) :: rest2, s)

/-- server.py `is_muted` (lines 144-156). -/
def is_muted (mutes : List (String × TimeStr)) (username : String)
    (now : Int) : Option String × List (String × TimeStr) × Bool :=
  isMutedAux now (pyLower username) mutes

-- ---------------------------------------------------------------------------
-- Persistence
-- ---------------------------------------------------------------------------

/-- The durable part of the state: the `{bans, mutes}` maps. -/
structure Store where
  bans : List (String × Option TimeStr)
  mutes : List (String × TimeStr)
  deriving DecidableEq

/-- A ban entry is removed by the sweep when its expiry string is non-falsy,
parseable and at or before `now` (server.py lines 95-98). -/
def banExpired (now : Int) (v : Option TimeStr) : Bool :=
  match v with
  | some ts => match ts_from_iso ts with
    | some t => decide (t ≤ now)
    | none => false
  | none => false

/-- A mute entry is removed by the sweep when its expiry string is parseable
and at or before `now` (server.py lines 99-102). -/
def muteExpired (now : Int) (v : TimeStr) : Bool :=
  match ts_from_iso v with
  | some t => decide (t ≤ now)
  | none => false

/-- server.py `cleanup_expired_state` (lines 92-103): remove expired ban and
mute entries; the flag records whether a save was triggered (`changed`). -/
def cleanup_expired_state (st : Store) (now : Int) : Store × Bool :=
  let bans2 := st.bans.filter (fun p => !banExpired now p.2)
  let mutes2 := st.mutes.filter (fun p => !muteExpired now p.2)
  (⟨bans2, mutes2⟩,
   bans2.length < st.bans.length || mutes2.length < st.mutes.length)

/-- Abstract JSON values, restricted to the shapes the snapshot file uses:
`null`, timestamp strings, and string-keyed objects. -/
inductive Json where
  | jnull : Json
  | jtime (ts : TimeStr) : Json
  | jobj (fields : List (String × Json)) : Json

/-- Contents of the snapshot path: no file, a file `json.load` rejects, or a
parsed JSON value. -/
inductive FileContent where
  | missing : FileContent
  | corrupt : FileContent
  | jsonFile (j : Json) : FileContent

/-- Encoding of one ban expiry value (`None` or an ISO string). -/
def encodeBanVal : Option TimeStr → Json
  | none => Json.jnull
  | some ts => Json.jtime ts

/-- server.py `save_state` (lines 77-85): `json.dump({"bans": .., "mutes": ..})`
to a temp file followed by an atomic rename; the file ends up holding exactly
this object. -/
def save_state (st : Store) : FileContent :=
  FileContent.jsonFile
    (Json.jobj
      [("bans", Json.jobj (st.bans.map (fun p => (p.1, encodeBanVal p.2)))),
       ("mutes", Json.jobj (st.mutes.map (fun p => (p.1, Json.jtime p.2))))])

/-- `json.load` object semantics for duplicate keys: last value wins, at the
key's first position — i.e. repeated dict assignment. -/
def jsonObjPairs (l : List (String × Json)) : List (String × Json) :=
  l.foldl (fun acc p => dictInsert acc p.1 p.2) []

/-- Python `data.get(k, default-empty-object)` on a parsed JSON object. -/
def jGet (j : Json) (k : String) : Option Json :=
  match j with
  | Json.jobj l => ((jsonObjPairs l).find? (fun p => p.1 == k)).map Prod.snd
  | _ => none

/-- Decode one ban entry: `null` is a permanent ban, a string is an expiry.
`none` models an ill-shaped value, on which the Python pipeline raises an
uncaught exception (`AttributeError` in `cleanup_expired_state` or later in
`is_banned`) instead of loading; such values never occur in a file written
by `save_state`. -/
def decodeBanEntry (p : String × Json) : Option (String × Option TimeStr) :=
  match p.2 with
  | Json.jnull => some (p.1, none)
  | Json.jtime ts => some (p.1, some ts)
  | Json.jobj _ => none

/-- All-or-nothing traversal: `none` as soon as one entry is ill-shaped. -/
def optTraverse {α β : Type} (f : α → Option β) : List α → Option (List β)
  | [] => some []
  | a :: rest =>
    match f a, optTraverse f rest with
    | some b, some bs => some (b :: bs)
    | _, _ => none

/-- Decode the `bans` object.  A missing key defaults to the empty dict. -/
def decodeBans : Option Json → Option (List (String × Option TimeStr))
  | none => some []
  | some (Json.jobj l) => optTraverse decodeBanEntry (jsonObjPairs l)
  | some _ => none

/-- Decode one mute entry; the value must be a timestamp string (anything
else makes `ts_from_iso`'s `.replace` call raise an uncaught
`AttributeError`). -/
def decodeMuteEntry (p : String × Json) : Option (String × TimeStr) :=
  match p.2 with
  | Json.jtime ts => some (p.1, ts)
  | _ => none

/-- Decode the `mutes` object.  A missing key defaults to the empty dict. -/
def decodeMutes : Option Json → Option (List (String × TimeStr))
  | none => some []
  | some (Json.jobj l) => optTraverse decodeMuteEntry (jsonObjPairs l)
  | some _ => none

/-- server.py `load_state` (lines 105-116): a missing file leaves the
startup-empty store; a file `json.load` rejects is caught and also leaves it
empty; otherwise read `bans`/`mutes` (each defaulting to empty) and run the
expiry sweep immediately.  `none` models an uncaught exception on an
ill-shaped snapshot (see `decodeBans`). -/
def load_state (f : FileContent) (now : Int) : Option Store :=
  match f with
  | FileContent.missing => some ⟨[], []⟩
  | FileContent.corrupt => some ⟨[], []⟩
  | FileContent.jsonFile j =>
    match j with
    | Json.jobj _ =>
      match decodeBans (jGet j "bans"), decodeMutes (jGet j "mutes") with
      | some b, some m => some (cleanup_expired_state ⟨b, m⟩ now).1
      | _, _ => none
    | _ => none

-- ---------------------------------------------------------------------------
-- Presence registry helpers
-- ---------------------------------------------------------------------------

/-- server.py `find_user_by_name` (lines 159-165): first connected session
whose name matches case-insensitively, in insertion order. -/
def find_user_by_name (connected : List User) (username : String) : Option User :=
  connected.find? (fun u => pyLower u.username == pyLower username)

/-- server.py `is_username_in_use` (lines 167-168). -/
def is_username_in_use (connected : List User) (username : String) : Bool :=
  (find_user_by_name connected username).isSome

/-- server.py `get_users_list` (lines 188-189). -/
def get_users_list (connected : List User) : List (String × Role) :=
  connected.map (fun u => (u.username, u.role))

/-- Dict assignment `connected_users[user.session_id] = user`. -/
def insertUser (l : List User) (u : User) : List User :=
  if l.any (fun w => w.sessionId == u.sessionId) then
    l.map (fun w => if w.sessionId == u.sessionId then u else w)
  else l ++ [u]

/-- Dict deletion `del connected_users[sid]`. -/
def delUserKey : List User → String → List User
  | [], _ => []
  | w :: rest, sidKey => if w.sessionId == sidKey then rest else w :: delUserKey rest sidKey

-- ---------------------------------------------------------------------------
-- Command processor
-- ---------------------------------------------------------------------------

/-- server.py `parse_command_args` (lines 217-222): `@`-prefixed tokens form
the target set (Python `set` — modelled in first-insertion order), the rest
stay positional in order. -/
def parse_command_args (args : List String) : List String × List String :=
  args.foldl
    (fun acc arg =>
      if pyStartsWith arg "@" then (setAdd acc.1 (pyDrop arg 1), acc.2)
      else (acc.1, acc.2 ++ [arg]))
    ([], [])

/-- Accumulator for the per-target loop of `handle_admin_command`
(state, actions so far, `changed_state`). -/
structure CmdAcc where
  st : ServerState
  acts : List Action
  changed : Bool

/-- One iteration of the per-target loop (server.py lines 260-291).
`durPos` is the parsed duration with Python truthiness already applied
(`0` collapses to `None`). -/
def adminTargetStep (adminName : String) (cmd : String) (durPos : Option Nat)
    (reason : String) (now : Int) (acc : CmdAcc) (username : String) : CmdAcc :=
  let target := find_user_by_name acc.st.connected username
  if cmd == "/kick" then
    match target with
    | some tu =>
      { acc with acts := acc.acts ++
          [Action.toSession tu.sessionId
             (Event.system ("Kicked by admin. Reason: " ++ reason)),
           Action.closeConn tu.sessionId,
           Action.broadcastExcept []
             (Event.system (username ++ " was kicked by " ++ adminName ++ "."))] }
    | none => acc
  else if cmd == "/ban" then
    let banVal : Option TimeStr := match durPos with
      | some d => some (ts_iso (now + 60 * (d : Int)))
      | none => none
    let dStr := match durPos with
      | some d => "for " ++ toString d ++ " minutes"
      | none => "permanently"
    let tailActs := match target with
      | some tu =>
        [Action.toSession tu.sessionId
           (Event.system ("You have been banned " ++ dStr ++ ".")),
         Action.closeConn tu.sessionId]
      | none => []
    { st := { acc.st with bans := dictInsert acc.st.bans username banVal },
      acts := acc.acts ++
        [Action.broadcastExcept []
           (Event.system (username ++ " was banned " ++ dStr ++ " by "
              ++ adminName ++ "."))] ++ tailActs,
      changed := true }
  else if cmd == "/unban" then
    match acc.st.bans.find? (fun p => pyLower p.1 == pyLower username) with
    | some p =>
      { st := { acc.st with bans := delKey acc.st.bans p.1 },
        acts := acc.acts ++
          [Action.broadcastExcept []
             (Event.system (username ++ " was unbanned by " ++ adminName ++ "."))],
        changed := true }
    | none => acc
  else if cmd == "/mute" then
    let dMin := durPos.getD 5
    let tailActs := match target with
      | some tu =>
        [Action.toSession tu.sessionId
           (Event.system ("You are muted for " ++ toString dMin ++ " min."))]
      | none => []
    { st := { acc.st with
        mutes := dictInsert acc.st.mutes username (ts_iso (now + 60 * (dMin : Int))) },
      acts := acc.acts ++
        [Action.broadcastExcept []
           (Event.system (username ++ " was muted for " ++ toString dMin
              ++ " min by " ++ adminName ++ "."))] ++ tailActs,
      changed := true }
  else if cmd == "/unmute" then
    match acc.st.mutes.find? (fun p => pyLower p.1 == pyLower username) with
    | some p =>
      { st := { acc.st with mutes := delKey acc.st.mutes p.1 },
        acts := acc.acts ++
          [Action.broadcastExcept []
             (Event.system (username ++ " was unmuted by " ++ adminName ++ "."))],
        changed := true }
    | none => acc
  else acc

/-- server.py `handle_admin_command` (lines 224-293).  `none` models the
uncaught `IndexError` raised by `parts[0]` on an all-whitespace command. -/
def handle_admin_command (st : ServerState) (adminUser : User) (raw : String)
    (now : Int) : Option (ServerState × List Action) :=
  match pySplit (pyStrip raw) with
  | [] => none
  | c :: args =>
    let cmd := pyLower c
    if cmd == "/login" then
      let targets := (parse_command_args args).1
      if targets.isEmpty then
        some (st, [Action.toRequester (Event.system "Usage: /login @username")])
      else
        some (targets.foldl
          (fun acc u =>
            ({ acc.1 with tempWL := setAdd acc.1.tempWL (pyLower u) },
             acc.2 ++ [Action.toRequester (Event.system
               ("User \x27" ++ u ++ "\x27 has been temporarily whitelisted to join."))]))
          (st, []))
    else if cmd == "/clearall" then
      some (st, [Action.broadcastExcept [] Event.clear_chat,
                 Action.broadcastExcept []
                   (Event.system ("Chat history cleared by "
                      ++ adminUser.username ++ "."))])
    else if cmd == "/broadcast" || cmd == "/b" then
      let message := joinSep " " args
      if message == "" then
        some (st, [Action.toRequester (Event.system "Usage: /broadcast <message>")])
      else
        some (st, [Action.broadcastExcept []
          (Event.broadcast_msg adminUser.username message)])
    else if cmd == "/clearbroadcast" then
      some (st, [Action.broadcastExcept [] Event.clear_broadcast])
    else
      let parsed := parse_command_args args
      if parsed.1.isEmpty then
        some (st, [Action.toRequester
          (Event.system "You must specify at least one user with @mention.")])
      else
        let durAndRest : Option Nat × List String := match parsed.2 with
          | a :: tl => if pyIsDigit a then (some (pyToNat a), tl) else (none, a :: tl)
          | [] => (none, [])
        let joined := joinSep " " durAndRest.2
        let reason := if joined == "" then "No reason specified." else joined
        let durPos : Option Nat := match durAndRest.1 with
          | some 0 => none
          | x => x
        let acc := parsed.1.foldl
          (adminTargetStep adminUser.username cmd durPos reason now)
          ⟨st, [], false⟩
        some (acc.st, acc.acts ++ (if acc.changed then [Action.save] else []))

-- ---------------------------------------------------------------------------
-- Message dispatch
-- ---------------------------------------------------------------------------

/-- Inbound events of an active session, by their `type` discriminator.
`other` covers unrecognized types (silently ignored). -/
inductive InMsg where
  | message (text : String) : InMsg
  | pm (recipients : List String) (text : String) : InMsg
  | nick (toNick : Option String) : InMsg
  | command (raw : String) : InMsg
  | ai (text : String) : InMsg
  | other : InMsg
  deriving DecidableEq

/-- `MODEL_ALIASES.get(alias, DEFAULT_MODEL)`. -/
def lookupAlias (aliasName : String) : String :=
  ((MODEL_ALIASES.find? (fun p => p.1 == aliasName)).map Prod.snd).getD DEFAULT_MODEL

/-- server.py `handle_message` (lines 295-342).  `complete prompt modelId`
abstracts `call_groq_api`; `none` models an uncaught exception (empty admin
command).  Note on the `nick` branch: the source's second broadcast runs
while already holding the non-reentrant `connected_lock` (line 313), a
liveness issue invisible to this sequential model. -/
def handle_message (st : ServerState) (u : User) (msg : InMsg) (now : Int)
    (complete : String → String → String) : Option (ServerState × List Action) :=
  let isMsgClass := match msg with
    | InMsg.message _ => true
    | InMsg.pm _ _ => true
    | _ => false
  let muteRes := if isMsgClass then is_muted st.mutes u.username now
                 else (none, st.mutes, false)
  let st1 : ServerState := { st with mutes := muteRes.2.1 }
  let pre : List Action := if muteRes.2.2 then [Action.save] else []
  match muteRes.1 with
  | some reason => some (st1, pre ++ [Action.toRequester (Event.system reason)])
  | none =>
    match msg with
    | InMsg.message text =>
      some (st1, pre ++ [Action.broadcastExcept [] (Event.message u.username text)])
    | InMsg.pm recipients text =>
      if recipients ≠ [] ∧ text ≠ "" then
        let payload := Event.pm u.username recipients text
        let sends := recipients.map (fun r =>
          match find_user_by_name st1.connected r with
          | some tu => Action.toSession tu.sessionId payload
          | none => Action.toRequester
              (Event.system ("User \x27" ++ r ++ "\x27 not found.")))
        some (st1, pre ++ sends ++ [Action.toRequester payload])
      else some (st1, pre)
    | InMsg.nick toNick =>
      let newNick := pyStrip (toNick.getD "")
      if newNick ≠ "" ∧ 1 ≤ newNick.length ∧ newNick.length ≤ 32
          ∧ ¬is_username_in_use st1.connected newNick
          ∧ pyLower newNick ≠ pyLower ADMIN_USERNAME then
        let oldNick := u.username
        let connected2 := st1.connected.map (fun w =>
          if w.sessionId == u.sessionId then { w with username := newNick } else w)
        some ({ st1 with connected := connected2 },
          pre ++ [Action.broadcastExcept []
                    (Event.system (oldNick ++ " is now known as " ++ newNick ++ ".")),
                  Action.broadcastExcept [] (Event.users (get_users_list connected2))])
      else some (st1, pre ++ [Action.toRequester (Event.system "Invalid or taken nickname.")])
    | InMsg.command raw =>
      if u.role == Role.admin then
        match handle_admin_command st1 u raw now with
        | some (st2, acts) => some (st2, pre ++ acts)
        | none => none
      else
        some (st1, pre ++ [Action.toRequester
          (Event.system "You do not have permission to use admin commands.")])
    | InMsg.ai text =>
      let parts := pySplit text
      let aliasAndPrompt : String × List String := match parts with
        | a :: b :: r1 :: rest =>
          if a == "--model" then (pyLower b, r1 :: rest) else ("compound", parts)
        | _ => ("compound", parts)
      let modelId := lookupAlias aliasAndPrompt.1
      let promptText := joinSep " " aliasAndPrompt.2
      if promptText == "" then
        some (st1, pre ++ [Action.toRequester
          (Event.system "Usage: /ai [--model <name>] <prompt>")])
      else
        some (st1, pre ++
          [Action.broadcastExcept []
             (Event.system (u.username ++ " is asking the AI ("
                ++ aliasAndPrompt.1 ++ ")...")),
           Action.broadcastExcept [] (Event.ai_resp (complete promptText modelId))])
    | InMsg.other => some (st1, pre)

-- ---------------------------------------------------------------------------
-- Connection lifecycle: auth phase and eviction path
-- ---------------------------------------------------------------------------

/-- server.py `websocket_endpoint` auth phase (lines 356-397), given the
first inbound event within the timeout was a well-formed `auth` message.
`usernameOpt`/`passwordOpt` model `auth_msg.get(...)` (absent or null keys
give `none`); `sid` is the generated `uuid4` session id; `complete` is the
external completion call producing the welcome text.
`secrets.compare_digest` is modelled as string equality: constant-time
behaviour has no observable counterpart in a sequential model. -/
def auth_attempt (st : ServerState) (usernameOpt passwordOpt : Option String)
    (now : Int) (sid : String) (complete : String → String → String) :
    ServerState × List Action :=
  let reqName := pyStrip (usernameOpt.getD "")
  let reqLower := pyLower reqName
  if reqName = "" ∨ 32 < reqName.length then
    (st, [Action.toRequester (Event.auth_failed "Username must be 1-32 characters")])
  else
    let banRes := is_banned st.bans reqName now
    let st1 : ServerState := { st with bans := banRes.2.1 }
    let pre : List Action := if banRes.2.2 then [Action.save] else []
    match banRes.1 with
    | some reason => (st1, pre ++ [Action.toRequester (Event.auth_failed reason)])
    | none =>
      if is_username_in_use st.connected reqName then
        (st1, pre ++ [Action.toRequester (Event.auth_failed "Username is already in use")])
      else
        let isWhitelisted := WHITELISTED_USERS.any (fun u => pyLower u == reqLower)
        let isTempWhitelisted := reqLower ∈ st.tempWL
        let isTestUser := pyStartsWith reqLower "test" && pyIsDigit (pyDrop reqLower 4)
        let isAdminUser := reqLower = pyLower ADMIN_USERNAME
        if ¬(isWhitelisted = true ∨ isTempWhitelisted ∨ isTestUser = true ∨ isAdminUser) then
          (st1, pre ++ [Action.toRequester
            (Event.auth_failed "You are not authorized to join this server.")])
        else
          if isAdminUser ∧ (passwordOpt.getD "") ≠ ADMIN_PASSWORD then
            (st1, pre ++ [Action.toRequester (Event.auth_failed "Invalid admin credentials")])
          else
            let role := if isAdminUser then Role.admin else Role.user
            let user : User := ⟨sid, reqName, role⟩
            let tempWL2 := if reqLower ∈ st.tempWL
              then st.tempWL.filter (fun x => x ≠ reqLower)
              else st.tempWL
            let connected2 := insertUser st.connected user
            let usersList := get_users_list connected2
            ({ st1 with connected := connected2, tempWL := tempWL2 },
             pre ++
               [Action.toRequester (Event.auth_ok reqName role),
                Action.broadcastExcept [sid] (Event.user_join reqName role),
                Action.toRequester (Event.users usersList),
                Action.toRequester (Event.system (complete
                  ("Generate a short, cool, welcoming message for \x27" ++ reqName
                     ++ "\x27 joining \x27" ++ APP_NAME ++ "\x27 chat.")
                  "llama3-8b-8192"))])

/-- server.py `websocket_endpoint` `finally` block (lines 403-408): the
eviction path for an admitted user.  The registry deletion is guarded by a
membership test, but both leave broadcasts are emitted unconditionally. -/
def eviction (connected : List User) (u : User) : List User × List Action :=
  let connected2 :=
    if connected.any (fun w => w.sessionId == u.sessionId)
    then delUserKey connected u.sessionId
    else connected
  (connected2,
   [Action.broadcastExcept [] (Event.user_leave u.username u.role),
    Action.broadcastExcept [] (Event.system (u.username ++ " has left the chat."))])

-- ---------------------------------------------------------------------------
-- Helper lemmas
-- ---------------------------------------------------------------------------

lemma isBannedAux_filter_nil (now : Int) (low : String)
    (bans : List (String × Option TimeStr))
    (h : bans.filter (fun p => pyLower p.1 == low) = []) :
    isBannedAux now low bans = (none, bans, false) := by
  induction bans with
  | nil => rfl
  | cons p rest ih =>
    obtain ⟨k, v⟩ := p
    rw [List.filter_cons] at h
    by_cases hk : (pyLower k == low) = true
    · simp [hk] at h
    · rw [if_neg (by simpa using hk)] at h
      simp only [isBannedAux, hk, if_false, Bool.false_eq_true, ih h]

lemma isBannedAux_single_perm (now : Int) (low : String) (k : String)
    (bans : List (String × Option TimeStr))
    (h : bans.filter (fun p => pyLower p.1 == low) = [(k, none)]) :
    isBannedAux now low bans = (some "You are permanently banned.", bans, false) := by
  induction bans with
  | nil => simp at h
  | cons p rest ih =>
    obtain ⟨k', v⟩ := p
    rw [List.filter_cons] at h
    by_cases hk : (pyLower k' == low) = true
    · rw [if_pos (by simpa using hk)] at h
      obtain ⟨h1, _⟩ := List.cons_eq_cons.mp h
      obtain ⟨hkk, hv⟩ := Prod.mk.injEq .. ▸ h1
      subst hkk; subst hv
      simp only [isBannedAux, hk, if_true]
    · rw [if_neg (by simpa using hk)] at h
      simp only [isBannedAux, hk, if_false, Bool.false_eq_true, ih h]

lemma isBannedAux_single_active (now : Int) (low : String) (k : String) (t : Int)
    (bans : List (String × Option TimeStr))
    (h : bans.filter (fun p => pyLower p.1 == low) = [(k, some (TimeStr.valid t))])
    (hact : now < t) :
    isBannedAux now low bans =
      (some ("You are banned for another " ++ toString ((t - now) / 60) ++ " minutes."),
       bans, false) := by
  induction bans with
  | nil => simp at h
  | cons p rest ih =>
    obtain ⟨k', v⟩ := p
    rw [List.filter_cons] at h
    by_cases hk : (pyLower k' == low) = true
    · rw [if_pos (by simpa using hk)] at h
      obtain ⟨h1, _⟩ := List.cons_eq_cons.mp h
      obtain ⟨hkk, hv⟩ := Prod.mk.injEq .. ▸ h1
      subst hkk; subst hv
      simp only [isBannedAux, hk, if_true, ts_from_iso, hact]
    · rw [if_neg (by simpa using hk)] at h
      simp only [isBannedAux, hk, if_false, Bool.false_eq_true, ih h]

lemma isBannedAux_single_expired (now : Int) (low : String) (k : String) (t : Int)
    (bans : List (String × Option TimeStr))
    (h : bans.filter (fun p => pyLower p.1 == low) = [(k, some (TimeStr.valid t))])
    (hexp : t ≤ now) :
    isBannedAux now low bans = (none, delKey bans k, true) := by
  induction bans with
  | nil => simp at h
  | cons p rest ih =>
    obtain ⟨k', v⟩ := p
    rw [List.filter_cons] at h
    by_cases hk : (pyLower k' == low) = true
    · rw [if_pos (by simpa using hk)] at h
      obtain ⟨h1, h2⟩ := List.cons_eq_cons.mp h
      obtain ⟨hkk, hv⟩ := Prod.mk.injEq .. ▸ h1
      subst hkk; subst hv
      have hnl : ¬(now < t) := not_lt.mpr hexp
      simp only [isBannedAux, hk, if_true, ts_from_iso, hnl, if_false]
      simp [delKey]
    · rw [if_neg (by simpa using hk)] at h
      have hne : (k' == k) = false := by
        rcases List.mem_filter.mp (h ▸ List.mem_singleton_self (k, some (TimeStr.valid t))) with ⟨-, hkm⟩
        rw [beq_eq_false_iff_ne]
        simp only [beq_iff_eq] at hk hkm
        exact fun hc => hk (hc ▸ hkm)
      simp only [isBannedAux, hk, if_false, Bool.false_eq_true, ih h, delKey, hne]

lemma isMutedAux_filter_nil (now : Int) (low : String)
    (mutes : List (String × TimeStr))
    (h : mutes.filter (fun p => pyLower p.1 == low) = []) :
    isMutedAux now low mutes = (none, mutes, false) := by
  induction mutes with
  | nil => rfl
  | cons p rest ih =>
    obtain ⟨k, v⟩ := p
    rw [List.filter_cons] at h
    by_cases hk : (pyLower k == low) = true
    · simp [hk] at h
    · rw [if_neg (by simpa using hk)] at h
      simp only [isMutedAux, hk, if_false, Bool.false_eq_true, ih h]

lemma isMutedAux_single_active (now : Int) (low : String) (k : String) (t : Int)
    (mutes : List (String × TimeStr))
    (h : mutes.filter (fun p => pyLower p.1 == low) = [(k, TimeStr.valid t)])
    (hact : now < t) :
    isMutedAux now low mutes =
      (some ("You are muted for another " ++ toString (t - now) ++ "s."),
       mutes, false) := by
  induction mutes with
  | nil => simp at h
  | cons p rest ih =>
    obtain ⟨k', v⟩ := p
    rw [List.filter_cons] at h
    by_cases hk : (pyLower k' == low) = true
    · rw [if_pos (by simpa using hk)] at h
      obtain ⟨h1, _⟩ := List.cons_eq_cons.mp h
      obtain ⟨hkk, hv⟩ := Prod.mk.injEq .. ▸ h1
      subst hkk; subst hv
      simp only [isMutedAux, hk, if_true, ts_from_iso, hact]
    · rw [if_neg (by simpa using hk)] at h
      simp only [isMutedAux, hk, if_false, Bool.false_eq_true, ih h]

lemma isMutedAux_single_expired (now : Int) (low : String) (k : String) (t : Int)
    (mutes : List (String × TimeStr))
    (h : mutes.filter (fun p => pyLower p.1 == low) = [(k, TimeStr.valid t)])
    (hexp : t ≤ now) :
    isMutedAux now low mutes = (none, delKey mutes k, true) := by
  induction mutes with
  | nil => simp at h
  | cons p rest ih =>
    obtain ⟨k', v⟩ := p
    rw [List.filter_cons] at h
    by_cases hk : (pyLower k' == low) = true
    · rw [if_pos (by simpa using hk)] at h
      obtain ⟨h1, h2⟩ := List.cons_eq_cons.mp h
      obtain ⟨hkk, hv⟩ := Prod.mk.injEq .. ▸ h1
      subst hkk; subst hv
      have hnl : ¬(now < t) := not_lt.mpr hexp
      simp only [isMutedAux, hk, if_true, ts_from_iso, hnl, if_false]
      simp [delKey]
    · rw [if_neg (by simpa using hk)] at h
      have hne : (k' == k) = false := by
        rcases List.mem_filter.mp (h ▸ List.mem_singleton_self (k, TimeStr.valid t)) with ⟨-, hkm⟩
        rw [beq_eq_false_iff_ne]
        simp only [beq_iff_eq] at hk hkm
        exact fun hc => hk (hc ▸ hkm)
      simp only [isMutedAux, hk, if_false, Bool.false_eq_true, ih h, delKey, hne]

lemma dictInsert_mem_self {α : Type} (m : List (String × α)) (k : String) (v : α) :
    (k, v) ∈ dictInsert m k v := by
  by_cases hany : (m.any (fun p => p.1 == k)) = true
  · rw [dictInsert, if_pos hany]
    rcases List.any_eq_true.mp hany with ⟨p, hp, hpk⟩
    exact List.mem_map.mpr ⟨p, hp, by simp [hpk, beq_iff_eq.mp hpk]⟩
  · rw [dictInsert, if_neg hany]
    exact List.mem_append_right _ (List.mem_singleton_self _)

lemma dictInsert_mem_preserved {α : Type} {m : List (String × α)} {p : String × α}
    (hp : p ∈ m) {k : String} (hne : p.1 ≠ k) (v : α) :
    p ∈ dictInsert m k v := by
  by_cases hany : (m.any (fun q => q.1 == k)) = true
  · rw [dictInsert, if_pos hany]
    refine List.mem_map.mpr ⟨p, hp, ?_⟩
    rw [if_neg]
    simpa using hne
  · rw [dictInsert, if_neg hany]
    exact List.mem_append_left _ hp

lemma dictInsert_append {α : Type} (m : List (String × α)) (k : String) (v : α)
    (h : ∀ p ∈ m, p.1 ≠ k) : dictInsert m k v = m ++ [(k, v)] := by
  rw [dictInsert, if_neg]
  intro hany
  rcases List.any_eq_true.mp hany with ⟨p, hp, hpk⟩
  exact h p hp (beq_iff_eq.mp hpk)

lemma foldl_dictInsert_acc {α : Type} (l : List (String × α)) :
    ∀ acc : List (String × α), ((acc ++ l).map Prod.fst).Nodup →
      l.foldl (fun a p => dictInsert a p.1 p.2) acc = acc ++ l := by
  induction l with
  | nil => intro acc _; simp
  | cons p rest ih =>
    intro acc hnd
    have hdisj : ∀ q ∈ acc, q.1 ≠ p.1 := by
      intro q hq hc
      rw [List.map_append] at hnd
      rcases List.nodup_append.mp hnd with ⟨-, -, hdis⟩
      refine hdis (List.mem_map_of_mem _ hq) ?_
      have := List.mem_map_of_mem Prod.fst (List.mem_cons_self p rest)
      rwa [← hc] at this
    rw [List.foldl_cons, dictInsert_append acc p.1 p.2 hdisj]
    rw [ih (acc ++ [p]) (by simpa using hnd)]
    simp

lemma jsonObjPairs_eq_self {l : List (String × Json)}
    (hnd : (l.map Prod.fst).Nodup) : jsonObjPairs l = l := by
  have := foldl_dictInsert_acc l [] (by simpa using hnd)
  simpa [jsonObjPairs] using this

lemma traverse_decodeBanEntry_encode (bans : List (String × Option TimeStr)) :
    optTraverse decodeBanEntry (bans.map (fun p => (p.1, encodeBanVal p.2))) = some bans := by
  induction bans with
  | nil => rfl
  | cons p rest ih =>
    obtain ⟨k, v⟩ := p
    have hhead : decodeBanEntry (k, encodeBanVal v) = some (k, v) := by
      cases v <;> rfl
    simp only [List.map_cons, optTraverse, hhead, ih]

lemma traverse_decodeMuteEntry_encode (mutes : List (String × TimeStr)) :
    optTraverse decodeMuteEntry (mutes.map (fun p => (p.1, Json.jtime p.2))) = some mutes := by
  induction mutes with
  | nil => rfl
  | cons p rest ih =>
    have hhead : decodeMuteEntry (p.1, Json.jtime p.2) = some p := rfl
    simp only [List.map_cons, optTraverse, hhead, ih]

lemma setAdd_mem (l : List String) (x : String) : x ∈ setAdd l x := by
  by_cases hx : x ∈ l
  · rwa [setAdd, if_pos hx]
  · rw [setAdd, if_neg hx]
    exact List.mem_append_right _ (List.mem_singleton_self _)

lemma insertUser_mem_self (l : List User) (u : User) : u ∈ insertUser l u := by
  by_cases hany : (l.any (fun w => w.sessionId == u.sessionId)) = true
  · rw [insertUser, if_pos hany]
    rcases List.any_eq_true.mp hany with ⟨w, hw, hwk⟩
    exact List.mem_map.mpr ⟨w, hw, by simp [hwk]⟩
  · rw [insertUser, if_neg hany]
    exact List.mem_append_right _ (List.mem_singleton_self _)

lemma mem_save_opt {a : Action} {c : Bool}
    (h : a ∈ (if c = true then [Action.save] else [])) : a = Action.save := by
  cases c <;> simp_all

lemma delUserKey_no_sid (sid : String) :
    ∀ l : List User, (l.map User.sessionId).Nodup →
      ∀ w ∈ delUserKey l sid, w.sessionId ≠ sid := by
  intro l
  induction l with
  | nil => intro _ w hw; simp [delUserKey] at hw
  | cons a rest ih =>
    intro hnd w hw
    have hnd' : (a.sessionId :: rest.map User.sessionId).Nodup := by
      simpa using hnd
    by_cases ha : (a.sessionId == sid) = true
    · rw [delUserKey, if_pos ha] at hw
      have hs := beq_iff_eq.mp ha
      have hnotin : a.sessionId ∉ rest.map User.sessionId := (List.nodup_cons.mp hnd').1
      intro hc
      exact hnotin (by rw [hs, ← hc]; exact List.mem_map_of_mem _ hw)
    · rw [delUserKey, if_neg ha] at hw
      rcases List.mem_cons.mp hw with rfl | hw'
      · exact fun hc => ha (beq_iff_eq.mpr hc)
      · exact ih (List.nodup_cons.mp hnd').2 w hw'

/-- Recognizer for a `user_leave` broadcast among a handler's actions. -/
def isUserLeaveBroadcast : Action → Bool
  | Action.broadcastExcept _ (Event.user_leave _ _) => true
  | _ => false

-- ---------------------------------------------------------------------------
-- Claims
-- ---------------------------------------------------------------------------

/-- C5: snapshot round-trip.  Persisting any in-memory `{bans, mutes}` store
and loading it back reproduces the store modulo the immediate expiry sweep
(`cleanup_expired_state` runs at load time); loading a missing or corrupt
snapshot file yields the empty store rather than an error.  The no-duplicate
hypotheses state that the in-memory maps are Python dicts (exact keys are
unique). -/
theorem snapshot_round_trip (st : Store) (now : Int)
    (hb : (st.bans.map Prod.fst).Nodup) (hm : (st.mutes.map Prod.fst).Nodup) :
    load_state (save_state st) now = some (cleanup_expired_state st now).1 ∧
    load_state FileContent.missing now = some ⟨[], []⟩ ∧
    load_state FileContent.corrupt now = some ⟨[], []⟩ := by
  refine ⟨?_, rfl, rfl⟩
  have hbk : ((st.bans.map (fun p => (p.1, encodeBanVal p.2))).map Prod.fst).Nodup := by
    simpa [List.map_map, Function.comp] using hb
  have hmk : ((st.mutes.map (fun p => (p.1, Json.jtime p.2))).map Prod.fst).Nodup := by
    simpa [List.map_map, Function.comp] using hm
  have hdb : decodeBans (some (Json.jobj (st.bans.map (fun p => (p.1, encodeBanVal p.2)))))
      = some st.bans := by
    rw [decodeBans, jsonObjPairs_eq_self hbk, traverse_decodeBanEntry_encode]
  have hdm : decodeMutes (some (Json.jobj (st.mutes.map (fun p => (p.1, Json.jtime p.2)))))
      = some st.mutes := by
    rw [decodeMutes, jsonObjPairs_eq_self hmk, traverse_decodeMuteEntry_encode]
  show load_state (FileContent.jsonFile _) now = _
  rw [load_state]
  have hg1 : jGet (Json.jobj
      [("bans", Json.jobj (st.bans.map (fun p => (p.1, encodeBanVal p.2)))),
       ("mutes", Json.jobj (st.mutes.map (fun p => (p.1, Json.jtime p.2))))]) "bans"
      = some (Json.jobj (st.bans.map (fun p => (p.1, encodeBanVal p.2)))) := rfl
  have hg2 : jGet (Json.jobj
      [("bans", Json.jobj (st.bans.map (fun p => (p.1, encodeBanVal p.2)))),
       ("mutes", Json.jobj (st.mutes.map (fun p => (p.1, Json.jtime p.2))))]) "mutes"
      = some (Json.jobj (st.mutes.map (fun p => (p.1, Json.jtime p.2)))) := rfl
  rw [hg1, hg2, hdb, hdm]

/-- C5 witness: the spec's own example, a permanent ban for `alice` and a
future-expiry mute for `bob`, round-trips unchanged at `now = 100`. -/
theorem snapshot_round_trip_witness :
    ((⟨[("alice", none)], [("bob", TimeStr.valid 500)]⟩ : Store).bans.map Prod.fst).Nodup ∧
    load_state (save_state ⟨[("alice", none)], [("bob", TimeStr.valid 500)]⟩) 100 =
      some (cleanup_expired_state ⟨[("alice", none)], [("bob", TimeStr.valid 500)]⟩ 100).1 :=
  ⟨by decide,
   (snapshot_round_trip ⟨[("alice", none)], [("bob", TimeStr.valid 500)]⟩ 100
     (by decide) (by decide)).1⟩

/-- A concrete session used by counterexamples. -/
def cexUserA : User := ⟨"s1", "alice", Role.user⟩

/-- C3 counterexample: running the eviction path twice for the same session
does NOT produce exactly one `user_leave` broadcast — the second run finds
the registry entry absent yet still broadcasts `user_leave`, for two in
total. -/
theorem eviction_second_run_broadcasts_cex :
    ((eviction (eviction [cexUserA] cexUserA).1 cexUserA).2.filter
        isUserLeaveBroadcast).length = 1 ∧
    (((eviction [cexUserA] cexUserA).2 ++
        (eviction (eviction [cexUserA] cexUserA).1 cexUserA).2).filter
        isUserLeaveBroadcast).length = 2 := by
  decide

/-- C3 (amended): the registry deletion of the eviction path is idempotent —
after one run no entry with the session id remains and a second run leaves
the registry unchanged — but the `user_leave` broadcast is unconditional:
each run of the path, including the second, emits exactly one `user_leave`
broadcast (two in total), rather than the second run broadcasting nothing. -/
theorem eviction_idempotent_deletion_but_rebroadcast (connected : List User)
    (u : User) (hnd : (connected.map User.sessionId).Nodup) :
    (∀ w ∈ (eviction connected u).1, w.sessionId ≠ u.sessionId) ∧
    (eviction (eviction connected u).1 u).1 = (eviction connected u).1 ∧
    ((eviction connected u).2.filter isUserLeaveBroadcast).length = 1 ∧
    ((eviction (eviction connected u).1 u).2.filter isUserLeaveBroadcast).length = 1 := by
  have h1 : (eviction connected u).1 =
      (if connected.any (fun w => w.sessionId == u.sessionId) = true
       then delUserKey connected u.sessionId else connected) := rfl
  have hno : ∀ w ∈ (eviction connected u).1, w.sessionId ≠ u.sessionId := by
    rw [h1]
    by_cases hany : (connected.any (fun w => w.sessionId == u.sessionId)) = true
    · rw [if_pos hany]
      exact delUserKey_no_sid u.sessionId connected hnd
    · rw [if_neg hany]
      intro w hw hc
      exact hany (List.any_eq_true.mpr ⟨w, hw, beq_iff_eq.mpr hc⟩)
  refine ⟨hno, ?_, rfl, rfl⟩
  have h2 : (eviction (eviction connected u).1 u).1 =
      (if (eviction connected u).1.any (fun w => w.sessionId == u.sessionId) = true
       then delUserKey (eviction connected u).1 u.sessionId
       else (eviction connected u).1) := rfl
  rw [h2, if_neg]
  intro hany
  rcases List.any_eq_true.mp hany with ⟨w, hw, hwk⟩
  exact hno w hw (beq_iff_eq.mp hwk)

/-- C3 witness: a singleton registry, evicted once, retains no entry for the
session id and that run emits exactly one `user_leave` broadcast. -/
theorem eviction_idempotent_witness :
    ([cexUserA].map User.sessionId).Nodup ∧
    (∀ w ∈ (eviction [cexUserA] cexUserA).1, w.sessionId ≠ cexUserA.sessionId) ∧
    (eviction (eviction [cexUserA] cexUserA).1 cexUserA).1 =
      (eviction [cexUserA] cexUserA).1 ∧
    ((eviction [cexUserA] cexUserA).2.filter isUserLeaveBroadcast).length = 1 :=
  ⟨by decide,
   (eviction_idempotent_deletion_but_rebroadcast [cexUserA] cexUserA (by decide)).1,
   (eviction_idempotent_deletion_but_rebroadcast [cexUserA] cexUserA (by decide)).2.1,
   (eviction_idempotent_deletion_but_rebroadcast [cexUserA] cexUserA (by decide)).2.2.1⟩

/-- A concrete admin session used by counterexamples and witnesses. -/
def cexAdmin : User := ⟨"sidA", "Aadish", Role.admin⟩

/-- The empty server state (fresh startup). -/
def emptyState : ServerState := ⟨[], [], [], []⟩

/-- C2 counterexample: `/ban @Alice` followed by `/ban @alice` leaves TWO
ban entries that are equal case-insensitively (no overwrite), and a
subsequent `/unban @alice` removes only the first of them, leaving an entry
that the case-insensitive ban check still finds. -/
theorem ban_case_insensitive_overwrite_cex :
    ((handle_admin_command emptyState cexAdmin "/ban @Alice" 0).bind (fun r1 =>
      (handle_admin_command r1.1 cexAdmin "/ban @alice" 0).map (fun r2 => r2.1.bans)))
      = some [("Alice", none), ("alice", none)] ∧
    ((handle_admin_command emptyState cexAdmin "/ban @Alice" 0).bind (fun r1 =>
      (handle_admin_command r1.1 cexAdmin "/ban @alice" 0).bind (fun r2 =>
      (handle_admin_command r2.1 cexAdmin "/unban @alice" 0).map (fun r3 =>
        (r3.1.bans, (is_banned r3.1.bans "alice" 0).1)))))
      = some ([("alice", none)], some "You are permanently banned.") := by
  decide

/-- C2 (amended): moderation records are keyed by the exact display-name
string, not case-insensitively.  `/ban` writes with Python dict-assignment
semantics: it overwrites an existing record only under exact key equality
and preserves every entry with a different exact key, including
case-variants of the target, so the bans map can hold several entries for
one case-insensitive name.  `/unban` deletes only the first entry matching
the target case-insensitively (and nothing when there is no match), so a
remaining case-variant entry can still be found by a later ban check. -/
theorem ban_exact_key_unban_first_match (st : ServerState) (adminUser : User)
    (now : Int) :
    ((handle_admin_command st adminUser "/ban @Alice" now).map (fun r => r.1.bans)
       = some (dictInsert st.bans "Alice" none)) ∧
    ("Alice", none) ∈ dictInsert st.bans "Alice" none ∧
    (∀ p ∈ st.bans, p.1 ≠ "Alice" → p ∈ dictInsert st.bans "Alice" none) ∧
    (st.bans.find? (fun p => pyLower p.1 == pyLower "alice") = none →
      (handle_admin_command st adminUser "/unban @alice" now).map (fun r => r.1.bans)
        = some st.bans) ∧
    (∀ q, st.bans.find? (fun p => pyLower p.1 == pyLower "alice") = some q →
      (handle_admin_command st adminUser "/unban @alice" now).map (fun r => r.1.bans)
        = some (delKey st.bans q.1)) := by
  refine ⟨rfl, dictInsert_mem_self _ _ _,
    fun p hp hne => dictInsert_mem_preserved hp hne none, ?_, ?_⟩
  · intro hf
    have hps : pySplit (pyStrip "/unban @alice") = ["/unban", "@alice"] := by decide
    have hcl : pyLower "/unban" = "/unban" := by decide
    have hpa : parse_command_args ["@alice"] = (["alice"], []) := by decide
    simp only [handle_admin_command, hps, hcl, hpa]
    simp +decide only [adminTargetStep, hf, List.foldl]
    simp +decide
  · intro q hf
    have hps : pySplit (pyStrip "/unban @alice") = ["/unban", "@alice"] := by decide
    have hcl : pyLower "/unban" = "/unban" := by decide
    have hpa : parse_command_args ["@alice"] = (["alice"], []) := by decide
    simp only [handle_admin_command, hps, hcl, hpa]
    simp +decide only [adminTargetStep, hf, List.foldl]
    simp +decide

/-- C2 witness: with stored keys `Bob` and `ALICE`, `/unban @alice` removes
exactly the `ALICE` entry (the first case-insensitive match). -/
theorem ban_exact_key_unban_first_match_witness :
    (([("Bob", (none : Option TimeStr)), ("ALICE", none)]).find?
        (fun p => pyLower p.1 == pyLower "alice") = some ("ALICE", none)) ∧
    ((handle_admin_command ⟨[], [("Bob", none), ("ALICE", none)], [], []⟩ cexAdmin
        "/unban @alice" 7).map (fun r => r.1.bans) = some [("Bob", none)]) :=
  ⟨by decide,
   (ban_exact_key_unban_first_match ⟨[], [("Bob", none), ("ALICE", none)], [], []⟩
      cexAdmin 7).2.2.2.2 ("ALICE", none) (by decide)⟩

/-- C7: `/mute` with no duration argument sets a mute expiring 5 minutes
(300 s) from now; a sender whose mute record is still active gets only a
private notice with the mute reason on a `message` or `pm` event and nothing
reaches the broadcast fan-out; once the expiry has elapsed, the sender's
next `message` event deletes the stale record (scheduling a save) and is
broadcast normally.  The filter hypothesis says the store holds exactly one
record matching the sender's name case-insensitively — the mute record the
claim speaks of. -/
theorem mute_default_enforcement_expiry (st : ServerState) (u : User)
    (adminUser : User) (txt : String) (recipients : List String) (now : Int)
    (complete : String → String → String) (k : String) (t : Int) :
    ((handle_admin_command st adminUser "/mute @Bob" now).map (fun r => r.1.mutes)
       = some (dictInsert st.mutes "Bob" (TimeStr.valid (now + 5 * 60)))) ∧
    (st.mutes.filter (fun p => pyLower p.1 == pyLower u.username)
        = [(k, TimeStr.valid t)] →
      (now < t →
        handle_message st u (InMsg.message txt) now complete =
          some (st, [Action.toRequester (Event.system
            ("You are muted for another " ++ toString (t - now) ++ "s."))]) ∧
        handle_message st u (InMsg.pm recipients txt) now complete =
          some (st, [Action.toRequester (Event.system
            ("You are muted for another " ++ toString (t - now) ++ "s."))])) ∧
      (t ≤ now →
        handle_message st u (InMsg.message txt) now complete =
          some ({ st with mutes := delKey st.mutes k },
            [Action.save, Action.broadcastExcept [] (Event.message u.username txt)]))) := by
  constructor
  · rfl
  · intro hfil
    constructor
    · intro hact
      have hm := isMutedAux_single_active now (pyLower u.username) k t st.mutes hfil hact
      constructor <;>
        · simp only [handle_message, is_muted, hm]
          simp
    · intro hexp
      have hm := isMutedAux_single_expired now (pyLower u.username) k t st.mutes hfil hexp
      simp only [handle_message, is_muted, hm]
      simp

/-- C7 witness: `Bob` muted until instant 100: at `now = 50` his message is
rejected with the remaining-seconds notice; at `now = 150` it is broadcast
and the stale record is dropped; `/mute @Bob` at `now = 0` writes expiry
300. -/
theorem mute_default_enforcement_expiry_witness :
    (([("Bob", TimeStr.valid 100)] : List (String × TimeStr)).filter
        (fun p => pyLower p.1 == pyLower "bob") = [("Bob", TimeStr.valid 100)]) ∧
    ((handle_admin_command ⟨[], [], [], []⟩ cexAdmin "/mute @Bob" 0).map
        (fun r => r.1.mutes) = some [("Bob", TimeStr.valid 300)]) ∧
    (handle_message ⟨[], [], [("Bob", TimeStr.valid 100)], []⟩ ⟨"s2", "bob", Role.user⟩
        (InMsg.message "yo") 50 (fun _ _ => "") =
      some (⟨[], [], [("Bob", TimeStr.valid 100)], []⟩,
        [Action.toRequester (Event.system "You are muted for another 50s.")])) ∧
    (handle_message ⟨[], [], [("Bob", TimeStr.valid 100)], []⟩ ⟨"s2", "bob", Role.user⟩
        (InMsg.message "yo") 150 (fun _ _ => "") =
      some (⟨[], [], [], []⟩,
        [Action.save, Action.broadcastExcept [] (Event.message "bob" "yo")])) :=
  ⟨by decide,
   by
    have h := (mute_default_enforcement_expiry ⟨[], [], [], []⟩ ⟨"s2", "bob", Role.user⟩
      cexAdmin "yo" [] 0 (fun _ _ => "") "Bob" 100).1
    simpa using h,
   by
    have h := ((mute_default_enforcement_expiry ⟨[], [], [("Bob", TimeStr.valid 100)], []⟩
      ⟨"s2", "bob", Role.user⟩ cexAdmin "yo" [] 50 (fun _ _ => "") "Bob" 100).2
      (by decide)).1 (by decide)
    simpa using h.1,
   by
    have h := ((mute_default_enforcement_expiry ⟨[], [], [("Bob", TimeStr.valid 100)], []⟩
      ⟨"s2", "bob", Role.user⟩ cexAdmin "yo" [] 150 (fun _ _ => "") "Bob" 100).2
      (by decide)).2 (by decide)
    simpa using h⟩

/-- C6: an auth attempt with a name whose (unique) timed ban record has
expired — expiry at or before now — is not rejected by the ban check, which
instead deletes the stale record and schedules a persistence write; while
the timed ban is still active, the attempt is rejected with the
remaining-minutes reason and the outcome is the same for every password,
i.e. the rejection precedes any admin credential check.  The filter
hypothesis says the store holds exactly one record matching the name
case-insensitively — the ban record the claim speaks of. -/
theorem ban_expiry_and_precedence (st : ServerState) (name k : String)
    (t now : Int)
    (hfil : st.bans.filter (fun p => pyLower p.1 == pyLower name)
      = [(k, some (TimeStr.valid t))]) :
    (t ≤ now → is_banned st.bans name now = (none, delKey st.bans k, true)) ∧
    (now < t → pyStrip name = name → name ≠ "" → name.length ≤ 32 →
      ∀ (passwordOpt : Option String) (sid : String)
        (complete : String → String → String),
        auth_attempt st (some name) passwordOpt now sid complete =
          (st, [Action.toRequester (Event.auth_failed
            ("You are banned for another " ++ toString ((t - now) / 60)
              ++ " minutes."))])) := by
  constructor
  · intro hexp
    exact isBannedAux_single_expired now (pyLower name) k t st.bans hfil hexp
  · intro hact hstrip hne hlen passwordOpt sid complete
    have hb := isBannedAux_single_active now (pyLower name) k t st.bans hfil hact
    have hcond : ¬(name = "" ∨ 32 < name.length) := by
      push_neg
      exact ⟨hne, hlen⟩
    simp only [auth_attempt, Option.getD_some, hstrip, is_banned, hb]
    simp [hcond]

/-- C6 witness: `Bob` banned until instant 100: at `now = 150` the check
deletes the record and schedules a save without rejecting; at `now = 40`
every password yields the same "banned for another 1 minutes" rejection. -/
theorem ban_expiry_and_precedence_witness :
    (([("Bob", some (TimeStr.valid 100))] : List (String × Option TimeStr)).filter
        (fun p => pyLower p.1 == pyLower "Bob") = [("Bob", some (TimeStr.valid 100))]) ∧
    (is_banned [("Bob", some (TimeStr.valid 100))] "Bob" 150 = (none, [], true)) ∧
    (auth_attempt ⟨[], [("Bob", some (TimeStr.valid 100))], [], []⟩ (some "Bob")
        (some "Aadish20m") 40 "s1" (fun _ _ => "") =
      (⟨[], [("Bob", some (TimeStr.valid 100))], [], []⟩,
       [Action.toRequester (Event.auth_failed
         "You are banned for another 1 minutes.")])) :=
  ⟨by decide,
   by
    have h := (ban_expiry_and_precedence ⟨[], [("Bob", some (TimeStr.valid 100))], [], []⟩
      "Bob" "Bob" 100 150 (by decide)).1 (by decide)
    simpa using h,
   by
    have h := (ban_expiry_and_precedence ⟨[], [("Bob", some (TimeStr.valid 100))], [], []⟩
      "Bob" "Bob" 100 40 (by decide)).2 (by decide) (by decide) (by decide) (by decide)
      (some "Aadish20m") "s1" (fun _ _ => "")
    simpa using h⟩

lemma foldl_adminTargetStep_other (a : String) (cmd : String) (d : Option Nat)
    (r : String) (now : Int) (h1 : cmd ≠ "/kick") (h2 : cmd ≠ "/ban")
    (h3 : cmd ≠ "/unban") (h4 : cmd ≠ "/mute") (h5 : cmd ≠ "/unmute") :
    ∀ (ts : List String) (acc : CmdAcc),
      ts.foldl (adminTargetStep a cmd d r now) acc = acc := by
  intro ts
  induction ts with
  | nil => intro acc; rfl
  | cons x rest ih =>
    intro acc
    rw [List.foldl_cons]
    have hstep : adminTargetStep a cmd d r now acc x = acc := by
      simp only [adminTargetStep]
      simp [h1, h2, h3, h4, h5]
    rw [hstep, ih]

/-- C4 counterexample: an admin-issued command with an unknown leading token
but a well-formed `@target` (`/foo @alice`) produces NO usage notice at all —
no one, including the issuer, receives anything (the claim says the issuer
gets a private usage notice).  State is unchanged. -/
theorem unknown_command_with_target_silent_cex :
    handle_admin_command emptyState cexAdmin "/foo @alice" 0 = some (emptyState, []) := by
  decide

/-- C4 (amended): a malformed or unknown admin command never mutates the
bans, mutes or presence state and sends nothing to anyone but the issuer;
the issuer gets a private usage notice in every malformed case except one:
an unknown command token accompanied by at least one `@target` is silently
ignored (no notice at all).  Cases: unknown token without target, unknown
token with target, `/broadcast`//`/b` with empty text, `/login` without
target, and a moderation command without target. -/
theorem malformed_admin_command_no_mutation (st : ServerState) (adminUser : User)
    (raw : String) (now : Int) (c : String) (args : List String)
    (hparts : pySplit (pyStrip raw) = c :: args) :
    (pyLower c ∉ ["/login", "/clearall", "/broadcast", "/b", "/clearbroadcast",
        "/kick", "/ban", "/unban", "/mute", "/unmute"] →
      ((parse_command_args args).1 = [] →
        handle_admin_command st adminUser raw now =
          some (st, [Action.toRequester
            (Event.system "You must specify at least one user with @mention.")])) ∧
      ((parse_command_args args).1 ≠ [] →
        handle_admin_command st adminUser raw now = some (st, []))) ∧
    ((pyLower c = "/broadcast" ∨ pyLower c = "/b") → joinSep " " args = "" →
      handle_admin_command st adminUser raw now =
        some (st, [Action.toRequester (Event.system "Usage: /broadcast <message>")])) ∧
    (pyLower c = "/login" → (parse_command_args args).1 = [] →
      handle_admin_command st adminUser raw now =
        some (st, [Action.toRequester (Event.system "Usage: /login @username")])) ∧
    (pyLower c ∈ ["/kick", "/ban", "/unban", "/mute", "/unmute"] →
      (parse_command_args args).1 = [] →
      handle_admin_command st adminUser raw now =
        some (st, [Action.toRequester
          (Event.system "You must specify at least one user with @mention.")])) := by
  refine ⟨fun hunk => ⟨fun htgt => ?_, fun htgt => ?_⟩,
    fun hbc htxt => ?_, fun hlog htgt => ?_, fun hmod htgt => ?_⟩
  · simp only [List.mem_cons, List.mem_singleton, not_or] at hunk
    obtain ⟨n1, n2, n3, n4, n5, n6, n7, n8, n9, n10, -⟩ := hunk
    simp only [handle_admin_command, hparts]
    simp [n1, n2, n3, n4, n5, htgt]
  · simp only [List.mem_cons, List.mem_singleton, not_or] at hunk
    obtain ⟨n1, n2, n3, n4, n5, n6, n7, n8, n9, n10, -⟩ := hunk
    simp only [handle_admin_command, hparts]
    rw [foldl_adminTargetStep_other _ _ _ _ _ n6 n7 n8 n9 n10]
    simp [n1, n2, n3, n4, n5, htgt]
  · simp only [handle_admin_command, hparts]
    rcases hbc with hb1 | hb2
    · simp [hb1, htxt]
    · have : pyLower c ≠ "/login" := by rw [hb2]; decide
      simp [hb2, htxt, this]
  · simp only [handle_admin_command, hparts]
    simp [hlog, htgt]
  · have hmod' : pyLower c = "/kick" ∨ pyLower c = "/ban" ∨ pyLower c = "/unban" ∨
        pyLower c = "/mute" ∨ pyLower c = "/unmute" := by simpa using hmod
    simp only [handle_admin_command, hparts]
    rcases hmod' with h | h | h | h | h <;>
      · rw [h]
        simp [htgt]

/-- C4 witness: `/kick` with no target yields only the private `@mention`
usage notice and leaves the state unchanged; `/foo @alice` is silent. -/
theorem malformed_admin_command_no_mutation_witness :
    (pySplit (pyStrip "/kick") = ["/kick"] ++ []) ∧
    (handle_admin_command emptyState cexAdmin "/kick" 3 =
      some (emptyState, [Action.toRequester
        (Event.system "You must specify at least one user with @mention.")])) ∧
    (handle_admin_command emptyState cexAdmin "/foo @zed" 3 = some (emptyState, [])) :=
  ⟨by decide,
   (malformed_admin_command_no_mutation emptyState cexAdmin "/kick" 3 "/kick" []
      (by decide)).2.2.2 (by decide) (by decide),
   ((malformed_admin_command_no_mutation emptyState cexAdmin "/foo @zed" 3 "/foo"
      ["@zed"] (by decide)).1 (by decide)).2 (by decide)⟩

/-- C8 counterexample: a session that already holds the admin role (here an
admin renamed to `Bob`, reachable because an admin may rename away from the
reserved name) is REJECTED when renaming to the reserved admin display name
`Aadish`, even though the name passes the length check and is not in use —
the code has no role exemption for the reserved-name check. -/
theorem nick_admin_name_rejected_for_admin_cex :
    (pyStrip "Aadish" = "Aadish" ∧ ("Aadish" : String).length ≤ 32 ∧
     is_username_in_use [⟨"s2", "Bob", Role.admin⟩] "Aadish" = false ∧
     (⟨"s2", "Bob", Role.admin⟩ : User).role = Role.admin) ∧
    handle_message ⟨[⟨"s2", "Bob", Role.admin⟩], [], [], []⟩ ⟨"s2", "Bob", Role.admin⟩
        (InMsg.nick (some "Aadish")) 0 (fun _ _ => "") =
      some (⟨[⟨"s2", "Bob", Role.admin⟩], [], [], []⟩,
        [Action.toRequester (Event.system "Invalid or taken nickname.")]) := by
  decide

/-- C8 (amended): a `nick` event whose new name equals the reserved admin
display name under case-insensitive comparison is rejected for EVERY
session, whatever its role — admin sessions included; when the new name is
not the reserved name, the rename succeeds provided the 1-32 length check
and the case-insensitive uniqueness check pass. -/
theorem nick_admin_name_rejected_regardless_of_role (st : ServerState) (u : User)
    (toNick : Option String) (now : Int) (complete : String → String → String) :
    (pyLower (pyStrip (toNick.getD "")) = pyLower ADMIN_USERNAME →
      handle_message st u (InMsg.nick toNick) now complete =
        some (st, [Action.toRequester (Event.system "Invalid or taken nickname.")])) ∧
    (∀ nn, pyStrip (toNick.getD "") = nn → nn ≠ "" → nn.length ≤ 32 →
      is_username_in_use st.connected nn = false →
      pyLower nn ≠ pyLower ADMIN_USERNAME →
      handle_message st u (InMsg.nick toNick) now complete =
        some ({ st with connected := st.connected.map (fun w =>
            if w.sessionId == u.sessionId then { w with username := nn } else w) },
          [Action.broadcastExcept []
             (Event.system (u.username ++ " is now known as " ++ nn ++ ".")),
           Action.broadcastExcept []
             (Event.users (get_users_list (st.connected.map (fun w =>
               if w.sessionId == u.sessionId then { w with username := nn } else w))))])) := by
  constructor
  · intro hadm
    simp only [handle_message]
    simp [hadm]
  · intro nn hnn hne hlen huse hnadm
    have h1 : 1 ≤ nn.length := by
      obtain ⟨l⟩ := nn
      cases l with
      | nil => exact absurd rfl hne
      | cons a as => exact Nat.succ_le_succ (Nat.zero_le as.length)
    simp only [handle_message, hnn]
    simp [hne, h1, hlen, huse, hnadm]

/-- C8 witness: the admin-role session `Bob` cannot rename to `AADISH`
(case-insensitive match with the reserved name), but renaming to `Carl`
succeeds. -/
theorem nick_admin_name_rejected_regardless_of_role_witness :
    (pyLower (pyStrip "AADISH") = pyLower ADMIN_USERNAME) ∧
    (handle_message ⟨[⟨"s2", "Bob", Role.admin⟩], [], [], []⟩ ⟨"s2", "Bob", Role.admin⟩
        (InMsg.nick (some "AADISH")) 0 (fun _ _ => "") =
      some (⟨[⟨"s2", "Bob", Role.admin⟩], [], [], []⟩,
        [Action.toRequester (Event.system "Invalid or taken nickname.")])) ∧
    (handle_message ⟨[⟨"s2", "Bob", Role.admin⟩], [], [], []⟩ ⟨"s2", "Bob", Role.admin⟩
        (InMsg.nick (some "Carl")) 0 (fun _ _ => "") =
      some (⟨[⟨"s2", "Carl", Role.admin⟩], [], [], []⟩,
        [Action.broadcastExcept [] (Event.system "Bob is now known as Carl."),
         Action.broadcastExcept [] (Event.users [("Carl", Role.admin)])])) :=
  ⟨by decide,
   (nick_admin_name_rejected_regardless_of_role ⟨[⟨"s2", "Bob", Role.admin⟩], [], [], []⟩
      ⟨"s2", "Bob", Role.admin⟩ (some "AADISH") 0 (fun _ _ => "")).1 (by decide),
   by
    have h := (nick_admin_name_rejected_regardless_of_role
      ⟨[⟨"s2", "Bob", Role.admin⟩], [], [], []⟩ ⟨"s2", "Bob", Role.admin⟩
      (some "Carl") 0 (fun _ _ => "")).2 "Carl" (by decide) (by decide) (by decide)
      (by decide) (by decide)
    simpa using h⟩

/-- C9: for a `pm` event with a non-empty recipient list and non-empty text
from a sender with no mute record, the sender always receives a copy of the
outgoing pm payload (unconditional self-echo); each recipient name that does
not resolve to a live session costs the sender a private `not found` notice,
while every recipient that does resolve still receives the payload —
delivery proceeds independently of failed lookups.  State is unchanged. -/
theorem pm_self_echo_and_partial_delivery (st : ServerState) (u : User)
    (recipients : List String) (text : String) (now : Int)
    (complete : String → String → String)
    (hr : recipients ≠ []) (ht : text ≠ "")
    (hmute : st.mutes.filter (fun p => pyLower p.1 == pyLower u.username) = []) :
    ∀ stRes acts,
      handle_message st u (InMsg.pm recipients text) now complete = some (stRes, acts) →
      stRes = st ∧
      Action.toRequester (Event.pm u.username recipients text) ∈ acts ∧
      (∀ r ∈ recipients, find_user_by_name st.connected r = none →
        Action.toRequester (Event.system ("User \x27" ++ r ++ "\x27 not found.")) ∈ acts) ∧
      (∀ r ∈ recipients, ∀ tu, find_user_by_name st.connected r = some tu →
        Action.toSession tu.sessionId (Event.pm u.username recipients text) ∈ acts) := by
  have hm := isMutedAux_filter_nil now (pyLower u.username) st.mutes hmute
  have heval : handle_message st u (InMsg.pm recipients text) now complete =
      some (st, (recipients.map (fun r =>
        match find_user_by_name st.connected r with
        | some tu => Action.toSession tu.sessionId (Event.pm u.username recipients text)
        | none => Action.toRequester
            (Event.system ("User \x27" ++ r ++ "\x27 not found.")))) ++
        [Action.toRequester (Event.pm u.username recipients text)]) := by
    simp only [handle_message, is_muted, hm]
    simp [hr, ht]
  intro stRes acts heq
  rw [heval] at heq
  obtain ⟨h1, h2⟩ := Prod.mk.injEq .. ▸ Option.some.injEq .. ▸ heq
  refine ⟨h1.symm, ?_, ?_, ?_⟩
  · rw [← h2]
    exact List.mem_append_right _ (List.mem_singleton_self _)
  · intro r hrm hf
    rw [← h2]
    refine List.mem_append_left _ ?_
    have := List.mem_map_of_mem (fun r =>
      match find_user_by_name st.connected r with
      | some tu => Action.toSession tu.sessionId (Event.pm u.username recipients text)
      | none => Action.toRequester
          (Event.system ("User \x27" ++ r ++ "\x27 not found."))) hrm
    simpa [hf] using this
  · intro r hrm tu hf
    rw [← h2]
    refine List.mem_append_left _ ?_
    have := List.mem_map_of_mem (fun r =>
      match find_user_by_name st.connected r with
      | some tu => Action.toSession tu.sessionId (Event.pm u.username recipients text)
      | none => Action.toRequester
          (Event.system ("User \x27" ++ r ++ "\x27 not found."))) hrm
    simpa [hf] using this

/-- C9 witness: pm to `["Carl", "Dave"]` with only `Carl` connected: `Carl`
gets the payload, the sender gets a `Dave not found` notice and the
self-echo. -/
theorem pm_self_echo_and_partial_delivery_witness :
    (handle_message ⟨[⟨"s9", "Carl", Role.user⟩], [], [], []⟩ ⟨"s2", "bob", Role.user⟩
        (InMsg.pm ["Carl", "Dave"] "hi") 0 (fun _ _ => "") =
      some (⟨[⟨"s9", "Carl", Role.user⟩], [], [], []⟩,
        [Action.toSession "s9" (Event.pm "bob" ["Carl", "Dave"] "hi"),
         Action.toRequester (Event.system "User \x27Dave\x27 not found."),
         Action.toRequester (Event.pm "bob" ["Carl", "Dave"] "hi")])) ∧
    (Action.toRequester (Event.pm "bob" ["Carl", "Dave"] "hi") ∈
      [Action.toSession "s9" (Event.pm "bob" ["Carl", "Dave"] "hi"),
       Action.toRequester (Event.system "User \x27Dave\x27 not found."),
       Action.toRequester (Event.pm "bob" ["Carl", "Dave"] "hi")]) ∧
    (Action.toSession "s9" (Event.pm "bob" ["Carl", "Dave"] "hi") ∈
      [Action.toSession "s9" (Event.pm "bob" ["Carl", "Dave"] "hi"),
       Action.toRequester (Event.system "User \x27Dave\x27 not found."),
       Action.toRequester (Event.pm "bob" ["Carl", "Dave"] "hi")]) :=
  ⟨by decide,
   ((pm_self_echo_and_partial_delivery ⟨[⟨"s9", "Carl", Role.user⟩], [], [], []⟩
      ⟨"s2", "bob", Role.user⟩ ["Carl", "Dave"] "hi" 0 (fun _ _ => "")
      (by decide) (by decide) (by decide)
      ⟨[⟨"s9", "Carl", Role.user⟩], [], [], []⟩
      [Action.toSession "s9" (Event.pm "bob" ["Carl", "Dave"] "hi"),
       Action.toRequester (Event.system "User \x27Dave\x27 not found."),
       Action.toRequester (Event.pm "bob" ["Carl", "Dave"] "hi")]
      (by decide)).2.1),
   ((pm_self_echo_and_partial_delivery ⟨[⟨"s9", "Carl", Role.user⟩], [], [], []⟩
      ⟨"s2", "bob", Role.user⟩ ["Carl", "Dave"] "hi" 0 (fun _ _ => "")
      (by decide) (by decide) (by decide)
      ⟨[⟨"s9", "Carl", Role.user⟩], [], [], []⟩
      [Action.toSession "s9" (Event.pm "bob" ["Carl", "Dave"] "hi"),
       Action.toRequester (Event.system "User \x27Dave\x27 not found."),
       Action.toRequester (Event.pm "bob" ["Carl", "Dave"] "hi")]
      (by decide)).2.2.2 "Carl" (by decide)
      ⟨"s9", "Carl", Role.user⟩ (by decide))⟩

lemma auth_ok_not_mem_save_fail {req reason : String} {r : Role} {c : Bool} :
    Action.toRequester (Event.auth_ok req r) ∉
      ((if c = true then [Action.save] else []) ++
        [Action.toRequester (Event.auth_failed reason)]) := by
  cases c <;> simp

/-- Modelled from the amended claim: the five conditions for a successful
auth — the four of the original claim (non-empty stripped name of at most 32
characters, not currently banned, not already in use, and the shared-secret
password when the admin name is requested) plus the authorization check the
code actually performs (static whitelist, temporary whitelist,
`test<digits>` name, or the admin name, all case-insensitive). -/
def authChecksOk (st : ServerState) (req : String) (passwordOpt : Option String)
    (now : Int) : Prop :=
  req ≠ "" ∧ req.length ≤ 32 ∧
  (is_banned st.bans req now).1 = none ∧
  is_username_in_use st.connected req = false ∧
  (WHITELISTED_USERS.any (fun w => pyLower w == pyLower req) = true ∨
    pyLower req ∈ st.tempWL ∨
    (pyStartsWith (pyLower req) "test" && pyIsDigit (pyDrop (pyLower req) 4)) = true ∨
    pyLower req = pyLower ADMIN_USERNAME) ∧
  (pyLower req = pyLower ADMIN_USERNAME → passwordOpt.getD "" = ADMIN_PASSWORD)

/-- C1 counterexample: the four checks of the claim all pass for the name
`Zed` on a fresh server (non-empty ≤32-character name, not banned, not in
use, not the admin name), yet authentication fails with the authorization
rejection — so the four checks are NOT the only conditions under which an
auth attempt fails. -/
theorem auth_four_checks_not_sufficient_cex :
    (pyStrip "Zed" ≠ "" ∧ (pyStrip "Zed").length ≤ 32 ∧
     (is_banned emptyState.bans "Zed" 0).1 = none ∧
     is_username_in_use emptyState.connected "Zed" = false ∧
     pyLower "Zed" ≠ pyLower ADMIN_USERNAME) ∧
    auth_attempt emptyState (some "Zed") none 0 "s1" (fun _ _ => "") =
      (emptyState, [Action.toRequester (Event.auth_failed
        "You are not authorized to join this server.")]) := by
  decide

/-- C1 (amended): an auth attempt succeeds — the session is admitted into
the presence registry and an `auth_ok` is sent — precisely when FIVE checks
pass: the four of the original claim plus the authorization check (static
whitelist, temporary whitelist, `test<digits>` pattern, or admin name);
these five are the only conditions under which an auth attempt fails. -/
theorem auth_success_iff_checks (st : ServerState)
    (usernameOpt passwordOpt : Option String) (now : Int) (sid : String)
    (complete : String → String → String) :
    (∃ r, Action.toRequester (Event.auth_ok (pyStrip (usernameOpt.getD "")) r)
        ∈ (auth_attempt st usernameOpt passwordOpt now sid complete).2 ∧
      (⟨sid, pyStrip (usernameOpt.getD ""), r⟩ : User)
        ∈ (auth_attempt st usernameOpt passwordOpt now sid complete).1.connected) ↔
    authChecksOk st (pyStrip (usernameOpt.getD "")) passwordOpt now := by
  by_cases h1 : pyStrip (usernameOpt.getD "") = "" ∨
      32 < (pyStrip (usernameOpt.getD "")).length
  · have hres : auth_attempt st usernameOpt passwordOpt now sid complete =
        (st, [Action.toRequester (Event.auth_failed "Username must be 1-32 characters")]) := by
      simp only [auth_attempt, if_pos h1]
    rw [hres]
    simp only [authChecksOk]
    constructor
    · rintro ⟨r, hmem, -⟩
      simp at hmem
    · rintro ⟨hne, hlen, -⟩
      rcases h1 with h | h
      · exact absurd h hne
      · exact absurd hlen (not_le.mpr h)
  · rcases hbr : (is_banned st.bans (pyStrip (usernameOpt.getD "")) now).1 with - | reason
    case neg.some =>
      have hres : auth_attempt st usernameOpt passwordOpt now sid complete =
          ({ st with bans := (is_banned st.bans (pyStrip (usernameOpt.getD "")) now).2.1 },
           (if (is_banned st.bans (pyStrip (usernameOpt.getD "")) now).2.2 = true
            then [Action.save] else []) ++
             [Action.toRequester (Event.auth_failed reason)]) := by
        simp only [auth_attempt, if_neg h1, hbr]
      rw [hres]
      simp only [authChecksOk]
      constructor
      · rintro ⟨r, hmem, -⟩
        exact absurd hmem auth_ok_not_mem_save_fail
      · rintro ⟨-, -, hban, -⟩
        rw [hbr] at hban
        exact Option.noConfusion hban
    case neg.none =>
      by_cases h2 : is_username_in_use st.connected (pyStrip (usernameOpt.getD "")) = true
      · have hres : auth_attempt st usernameOpt passwordOpt now sid complete =
            ({ st with bans := (is_banned st.bans (pyStrip (usernameOpt.getD "")) now).2.1 },
             (if (is_banned st.bans (pyStrip (usernameOpt.getD "")) now).2.2 = true
              then [Action.save] else []) ++
               [Action.toRequester (Event.auth_failed "Username is already in use")]) := by
          simp only [auth_attempt, if_neg h1, hbr, if_pos h2]
        rw [hres]
        simp only [authChecksOk]
        constructor
        · rintro ⟨r, hmem, -⟩
          exact absurd hmem auth_ok_not_mem_save_fail
        · rintro ⟨-, -, -, huse, -⟩
          rw [h2] at huse
          exact Bool.noConfusion huse
      · by_cases h3 : (WHITELISTED_USERS.any
            (fun w => pyLower w == pyLower (pyStrip (usernameOpt.getD ""))) = true ∨
          pyLower (pyStrip (usernameOpt.getD "")) ∈ st.tempWL ∨
          (pyStartsWith (pyLower (pyStrip (usernameOpt.getD ""))) "test" &&
            pyIsDigit (pyDrop (pyLower (pyStrip (usernameOpt.getD ""))) 4)) = true ∨
          pyLower (pyStrip (usernameOpt.getD "")) = pyLower ADMIN_USERNAME)
        · by_cases h4 : pyLower (pyStrip (usernameOpt.getD "")) = pyLower ADMIN_USERNAME ∧
              passwordOpt.getD "" ≠ ADMIN_PASSWORD
          · have hres : auth_attempt st usernameOpt passwordOpt now sid complete =
                ({ st with bans := (is_banned st.bans (pyStrip (usernameOpt.getD "")) now).2.1 },
                 (if (is_banned st.bans (pyStrip (usernameOpt.getD "")) now).2.2 = true
                  then [Action.save] else []) ++
                   [Action.toRequester (Event.auth_failed "Invalid admin credentials")]) := by
              simp only [auth_attempt, if_neg h1, hbr, if_neg h2,
                if_neg (not_not_intro h3), if_pos h4]
            rw [hres]
            simp only [authChecksOk]
            constructor
            · rintro ⟨r, hmem, -⟩
              exact absurd hmem auth_ok_not_mem_save_fail
            · rintro ⟨-, -, -, -, -, hpwd⟩
              exact absurd (hpwd h4.1) h4.2
          · have hres : auth_attempt st usernameOpt passwordOpt now sid complete =
                ({ st with
                    bans := (is_banned st.bans (pyStrip (usernameOpt.getD "")) now).2.1,
                    connected := insertUser st.connected
                      ⟨sid, pyStrip (usernameOpt.getD ""),
                       if pyLower (pyStrip (usernameOpt.getD "")) = pyLower ADMIN_USERNAME
                       then Role.admin else Role.user⟩,
                    tempWL := if pyLower (pyStrip (usernameOpt.getD "")) ∈ st.tempWL
                      then st.tempWL.filter (fun x => x ≠ pyLower (pyStrip (usernameOpt.getD "")))
                      else st.tempWL },
                 (if (is_banned st.bans (pyStrip (usernameOpt.getD "")) now).2.2 = true
                  then [Action.save] else []) ++
                   [Action.toRequester (Event.auth_ok (pyStrip (usernameOpt.getD ""))
                      (if pyLower (pyStrip (usernameOpt.getD "")) = pyLower ADMIN_USERNAME
                       then Role.admin else Role.user)),
                    Action.broadcastExcept [sid]
                      (Event.user_join (pyStrip (usernameOpt.getD ""))
                        (if pyLower (pyStrip (usernameOpt.getD "")) = pyLower ADMIN_USERNAME
                         then Role.admin else Role.user)),
                    Action.toRequester (Event.users (get_users_list (insertUser st.connected
                      ⟨sid, pyStrip (usernameOpt.getD ""),
                       if pyLower (pyStrip (usernameOpt.getD "")) = pyLower ADMIN_USERNAME
                       then Role.admin else Role.user⟩))),
                    Action.toRequester (Event.system (complete
                      ("Generate a short, cool, welcoming message for \x27"
                        ++ pyStrip (usernameOpt.getD "") ++ "\x27 joining \x27"
                        ++ APP_NAME ++ "\x27 chat.") "llama3-8b-8192"))]) := by
              simp only [auth_attempt, if_neg h1, hbr, if_neg h2,
                if_neg (not_not_intro h3), if_neg h4]
            rw [hres]
            constructor
            · rintro -
              push_neg at h1 h4
              refine ⟨h1.1, not_lt.mp (by exact fun hc => absurd hc (not_lt.mpr h1.2)), hbr,
                Bool.eq_false_iff.mpr h2, h3, fun hadm => h4 hadm⟩
            · rintro -
              refine ⟨if pyLower (pyStrip (usernameOpt.getD "")) = pyLower ADMIN_USERNAME
                      then Role.admin else Role.user, ?_, ?_⟩
              · exact List.mem_append_right _ (List.mem_cons_self _ _)
              · exact insertUser_mem_self _ _
        · have hres : auth_attempt st usernameOpt passwordOpt now sid complete =
              ({ st with bans := (is_banned st.bans (pyStrip (usernameOpt.getD "")) now).2.1 },
               (if (is_banned st.bans (pyStrip (usernameOpt.getD "")) now).2.2 = true
                then [Action.save] else []) ++
                 [Action.toRequester (Event.auth_failed
                   "You are not authorized to join this server.")]) := by
            simp only [auth_attempt, if_neg h1, hbr, if_neg h2, if_pos (show ¬_ from h3)]
          rw [hres]
          simp only [authChecksOk]
          constructor
          · rintro ⟨r, hmem, -⟩
            exact absurd hmem auth_ok_not_mem_save_fail
          · rintro ⟨-, -, -, -, hauth, -⟩
            exact absurd hauth h3

lemma auth_ok_mem_imp_tempWL_removed (st : ServerState)
    (usernameOpt passwordOpt : Option String) (now : Int) (sid : String)
    (complete : String → String → String) (r : Role)
    (hmem : Action.toRequester (Event.auth_ok (pyStrip (usernameOpt.getD "")) r)
      ∈ (auth_attempt st usernameOpt passwordOpt now sid complete).2) :
    pyLower (pyStrip (usernameOpt.getD "")) ∉
      (auth_attempt st usernameOpt passwordOpt now sid complete).1.tempWL := by
  by_cases h1 : pyStrip (usernameOpt.getD "") = "" ∨
      32 < (pyStrip (usernameOpt.getD "")).length
  · have hacts : (auth_attempt st usernameOpt passwordOpt now sid complete).2 =
        [Action.toRequester (Event.auth_failed "Username must be 1-32 characters")] := by
      simp only [auth_attempt, if_pos h1]
    rw [hacts] at hmem
    simp at hmem
  · rcases hbr : (is_banned st.bans (pyStrip (usernameOpt.getD "")) now).1 with - | reason
    case neg.some =>
      have hacts : (auth_attempt st usernameOpt passwordOpt now sid complete).2 =
          (if (is_banned st.bans (pyStrip (usernameOpt.getD "")) now).2.2 = true
           then [Action.save] else []) ++
            [Action.toRequester (Event.auth_failed reason)] := by
        simp only [auth_attempt, if_neg h1, hbr]
      rw [hacts] at hmem
      exact absurd hmem auth_ok_not_mem_save_fail
    case neg.none =>
      by_cases h2 : is_username_in_use st.connected (pyStrip (usernameOpt.getD "")) = true
      · have hacts : (auth_attempt st usernameOpt passwordOpt now sid complete).2 =
            (if (is_banned st.bans (pyStrip (usernameOpt.getD "")) now).2.2 = true
             then [Action.save] else []) ++
              [Action.toRequester (Event.auth_failed "Username is already in use")] := by
          simp only [auth_attempt, if_neg h1, hbr, if_pos h2]
        rw [hacts] at hmem
        exact absurd hmem auth_ok_not_mem_save_fail
      · by_cases h3 : (WHITELISTED_USERS.any
            (fun w => pyLower w == pyLower (pyStrip (usernameOpt.getD ""))) = true ∨
          pyLower (pyStrip (usernameOpt.getD "")) ∈ st.tempWL ∨
          (pyStartsWith (pyLower (pyStrip (usernameOpt.getD ""))) "test" &&
            pyIsDigit (pyDrop (pyLower (pyStrip (usernameOpt.getD ""))) 4)) = true ∨
          pyLower (pyStrip (usernameOpt.getD "")) = pyLower ADMIN_USERNAME)
        · by_cases h4 : pyLower (pyStrip (usernameOpt.getD "")) = pyLower ADMIN_USERNAME ∧
              passwordOpt.getD "" ≠ ADMIN_PASSWORD
          · have hacts : (auth_attempt st usernameOpt passwordOpt now sid complete).2 =
                (if (is_banned st.bans (pyStrip (usernameOpt.getD "")) now).2.2 = true
                 then [Action.save] else []) ++
                  [Action.toRequester (Event.auth_failed "Invalid admin credentials")] := by
              simp only [auth_attempt, if_neg h1, hbr, if_neg h2,
                if_neg (not_not_intro h3), if_pos h4]
            rw [hacts] at hmem
            exact absurd hmem auth_ok_not_mem_save_fail
          · have htw : (auth_attempt st usernameOpt passwordOpt now sid complete).1.tempWL =
                (if pyLower (pyStrip (usernameOpt.getD "")) ∈ st.tempWL
                 then st.tempWL.filter (fun x => x ≠ pyLower (pyStrip (usernameOpt.getD "")))
                 else st.tempWL) := by
              simp only [auth_attempt, if_neg h1, hbr, if_neg h2,
                if_neg (not_not_intro h3), if_neg h4]
            rw [htw]
            by_cases hm : pyLower (pyStrip (usernameOpt.getD "")) ∈ st.tempWL
            · rw [if_pos hm]
              intro hc
              rcases List.mem_filter.mp hc with ⟨-, hdec⟩
              simp at hdec
            · rw [if_neg hm]
              exact hm
        · have hacts : (auth_attempt st usernameOpt passwordOpt now sid complete).2 =
              (if (is_banned st.bans (pyStrip (usernameOpt.getD "")) now).2.2 = true
               then [Action.save] else []) ++
                [Action.toRequester (Event.auth_failed
                  "You are not authorized to join this server.")] := by
            simp only [auth_attempt, if_neg h1, hbr, if_neg h2, if_pos (show ¬_ from h3)]
          rw [hacts] at hmem
          exact absurd hmem auth_ok_not_mem_save_fail

/-- C10: temporary whitelist access is single-use.  `/login @Bob` adds the
lowered name to the temporary whitelist; every successful admission with a
name removes the lowered name from the temporary whitelist of the resulting
state; and an auth attempt whose (valid, unbanned, unused) name is not in
the temporary whitelist and not otherwise authorized — not statically
whitelisted, not a `test<digits>` name, not the admin name — is rejected
with the authorization failure. -/
theorem temp_whitelist_single_use (st : ServerState) (adminUser : User) (now : Int)
    (usernameOpt passwordOpt : Option String) (sid : String)
    (complete : String → String → String) (name : String) :
    (handle_admin_command st adminUser "/login @Bob" now =
      some ({ st with tempWL := setAdd st.tempWL "bob" },
        [Action.toRequester (Event.system
          "User \x27Bob\x27 has been temporarily whitelisted to join.")]) ∧
     "bob" ∈ setAdd st.tempWL "bob") ∧
    (∀ r, Action.toRequester (Event.auth_ok (pyStrip (usernameOpt.getD "")) r)
        ∈ (auth_attempt st usernameOpt passwordOpt now sid complete).2 →
      pyLower (pyStrip (usernameOpt.getD "")) ∉
        (auth_attempt st usernameOpt passwordOpt now sid complete).1.tempWL) ∧
    (pyStrip name = name → name ≠ "" → name.length ≤ 32 →
      st.bans.filter (fun p => pyLower p.1 == pyLower name) = [] →
      is_username_in_use st.connected name = false →
      WHITELISTED_USERS.any (fun w => pyLower w == pyLower name) = false →
      pyLower name ∉ st.tempWL →
      (pyStartsWith (pyLower name) "test" && pyIsDigit (pyDrop (pyLower name) 4)) = false →
      pyLower name ≠ pyLower ADMIN_USERNAME →
      auth_attempt st (some name) passwordOpt now sid complete =
        (st, [Action.toRequester (Event.auth_failed
          "You are not authorized to join this server.")])) := by
  refine ⟨⟨rfl, setAdd_mem _ _⟩,
    fun r hmem => auth_ok_mem_imp_tempWL_removed st usernameOpt passwordOpt now sid
      complete r hmem, ?_⟩
  intro hstrip hne hlen hfil huse hwl htmp htest hadm
  have hb := isBannedAux_filter_nil now (pyLower name) st.bans hfil
  have h1 : ¬(name = "" ∨ 32 < name.length) := by
    push_neg
    exact ⟨hne, hlen⟩
  have h3 : ¬(WHITELISTED_USERS.any (fun w => pyLower w == pyLower name) = true ∨
      pyLower name ∈ st.tempWL ∨
      (pyStartsWith (pyLower name) "test" && pyIsDigit (pyDrop (pyLower name) 4)) = true ∨
      pyLower name = pyLower ADMIN_USERNAME) := by
    push_neg
    refine ⟨?_, htmp, ?_, hadm⟩
    · rw [hwl]
      exact Bool.false_ne_true
    · rw [htest]
      exact Bool.false_ne_true
  have h2 : ¬(is_username_in_use st.connected name = true) := by
    rw [huse]
    exact Bool.false_ne_true
  simp only [auth_attempt, Option.getD_some, hstrip, if_neg h1, is_banned, hb,
    if_neg h2, if_pos h3]
  simp

/-- C10 witness: `/login @Bob` whitelists `bob`; `Bob` then authenticates
successfully and the entry is gone from the resulting state; a fresh attempt
with `Bob` against a state without the entry is rejected as unauthorized. -/
theorem temp_whitelist_single_use_witness :
    (handle_admin_command emptyState cexAdmin "/login @Bob" 0 =
      some (⟨[], [], [], ["bob"]⟩,
        [Action.toRequester (Event.system
          "User \x27Bob\x27 has been temporarily whitelisted to join.")])) ∧
    (Action.toRequester (Event.auth_ok "Bob" Role.user)
        ∈ (auth_attempt ⟨[], [], [], ["bob"]⟩ (some "Bob") none 0 "s1"
            (fun _ _ => "")).2 →
      "bob" ∉ (auth_attempt ⟨[], [], [], ["bob"]⟩ (some "Bob") none 0 "s1"
            (fun _ _ => "")).1.tempWL) ∧
    ("bob" ∉ (auth_attempt ⟨[], [], [], ["bob"]⟩ (some "Bob") none 0 "s1"
        (fun _ _ => "")).1.tempWL) ∧
    (auth_attempt emptyState (some "Bob") none 0 "s2" (fun _ _ => "") =
      (emptyState, [Action.toRequester (Event.auth_failed
        "You are not authorized to join this server.")])) :=
  ⟨by
    have h := (temp_whitelist_single_use emptyState cexAdmin 0 none none "s1"
      (fun _ _ => "") "x").1.1
    simpa using h,
   fun hmem => by
    have h := (temp_whitelist_single_use ⟨[], [], [], ["bob"]⟩ cexAdmin 0
      (some "Bob") none "s1" (fun _ _ => "") "x").2.1 Role.user
    exact h (by simpa using hmem),
   by
    have h := (temp_whitelist_single_use ⟨[], [], [], ["bob"]⟩ cexAdmin 0
      (some "Bob") none "s1" (fun _ _ => "") "x").2.1 Role.user (by decide)
    simpa using h,
   (temp_whitelist_single_use emptyState cexAdmin 0 none none "s2"
      (fun _ _ => "") "Bob").2.2 (by decide) (by decide) (by decide) (by decide)
      (by decide) (by decide) (by decide) (by decide) (by decide)⟩

end Akatsuki
